import Mathlib

/-!
Shallow embedding of `src/ethpm/contract.py` (py-ethpm): the link-reference
resolution and patching engine for linkable contract factories, together with
the lifecycle guards that gate instantiation and deployment on linking
completeness.  Byte payloads are modelled as `List Nat`; fallible operations
return `Except Err`.
-/

/-- Error values raised by the linking engine.  `bytecodeLinkingError`
corresponds to `BytecodeLinkingError`, `validationError` to `ValidationError`,
and `keyError` to a Python `KeyError` raised by a missing attr-dict name.
Messages are the literal strings from the source (payload-dependent parts of
the message are omitted). -/
inductive Err where
  | bytecodeLinkingError (msg : String)
  | validationError (msg : String)
  | keyError (name : String)
  deriving DecidableEq

/-- A link reference entry of a reference list: a dependency name, the byte
offsets at which it must be patched, and the width of each patch region
(fields `name`, `offsets`, `length` of the dicts in `contract.py`). -/
structure LinkRef where
  name : String
  offsets : List Nat
  length : Nat
  deriving DecidableEq

/-- The bytes of region `[offset, offset+length)` of a payload, truncated at
the end of the payload (Python slice semantics). -/
def readRegion (bytecode : List Nat) (offset length : Nat) : List Nat :=
  (bytecode.drop offset).take length

/-- Modelled from the spec: `ethpm.validation.validate_empty_bytes` is not
under `src/`.  Per the Placeholder Scanner contract it decides whether region
`[offset, offset+length)` of the payload consists entirely of zero bytes;
`true` is the non-raising case, `false` means it raises `ValidationError`.
A region reaching past the end of the payload is not empty. -/
def validate_empty_bytes (offset length : Nat) (bytecode : List Nat) : Bool :=
  readRegion bytecode offset length == List.replicate length 0

/-- `is_prelinked_bytecode` from `contract.py`: returns `true` as soon as some
referenced region fails the empty-bytes check (the payload is considered
already linked), and `false` when every referenced region is empty. -/
def is_prelinked_bytecode (bytecode : List Nat) (link_refs : List LinkRef) :
    Bool :=
  link_refs.any fun ref =>
    ref.offsets.any fun offset =>
      !(validate_empty_bytes offset ref.length bytecode)

/-- `apply_link_ref` from `contract.py`: checks that the target region is
empty (re-raising the failure as a `BytecodeLinkingError`), then returns
`bytecode[:offset] + value + bytecode[offset+length:]`. -/
def apply_link_ref (offset length : Nat) (value : List Nat)
    (bytecode : List Nat) : Except Err (List Nat) :=
  if validate_empty_bytes offset length bytecode then
    Except.ok (bytecode.take offset ++ value ++ bytecode.drop (offset + length))
  else
    Except.error (Err.bytecodeLinkingError
      "Link references cannot be applied to bytecode")

/-- The `(offset, length, name)` triples enumerated by the generator in
`apply_all_link_refs`: outer loop over the reference list, inner loop over
the offsets of each reference, in order. -/
def linkPairs (link_refs : List LinkRef) : List (Nat × Nat × String) :=
  link_refs.flatMap fun ref =>
    ref.offsets.map fun offset => (offset, ref.length, ref.name)

/-- Resolution phase of `apply_all_link_refs`: unpacking the generator into
`pipe` evaluates every `attr_dict[ref.name]` lookup, in pair order, before any
patch function runs; a missing name raises `KeyError` there. -/
def resolveAll (attr_dict : List (String × List Nat)) :
    List (Nat × Nat × String) → Except Err (List (Nat × Nat × List Nat))
  | [] => Except.ok []
  | p :: ps =>
    match List.lookup p.2.2 attr_dict with
    | none => Except.error (Err.keyError p.2.2)
    | some v =>
      match resolveAll attr_dict ps with
      | Except.error e => Except.error e
      | Except.ok qs => Except.ok ((p.1, p.2.1, v) :: qs)

/-- Patching phase of `apply_all_link_refs`: `pipe` threads the payload
through the curried `apply_link_ref` functions from left to right. -/
def foldPatches : List (Nat × Nat × List Nat) → List Nat →
    Except Err (List Nat)
  | [], bytecode => Except.ok bytecode
  | q :: qs, bytecode =>
    match apply_link_ref q.1 q.2.1 q.2.2 bytecode with
    | Except.error e => Except.error e
    | Except.ok linked => foldPatches qs linked

/-- `apply_all_link_refs` from `contract.py`: returns the payload unchanged
when the reference list is `None`, otherwise resolves every
`(offset, length, value)` triple and pipes the payload through the patchers. -/
def apply_all_link_refs (bytecode : List Nat)
    (link_refs : Option (List LinkRef))
    (attr_dict : List (String × List Nat)) : Except Err (List Nat) :=
  match link_refs with
  | none => Except.ok bytecode
  | some refs =>
    match resolveAll attr_dict (linkPairs refs) with
    | Except.error e => Except.error e
    | Except.ok qs => foldPatches qs bytecode

/-- An attr-dict value: either raw bytes or a display-formatted string (such
as a checksummed hex address). -/
inductive AddrValue where
  | raw (b : List Nat)
  | strval (s : String)
  deriving DecidableEq

/-- Modelled from the spec: `eth_utils.is_canonical_address` (external
dependency).  A canonical address is a fixed-width (20-byte) raw-byte value;
any string form is not canonical. -/
def is_canonical_address : AddrValue → Bool
  | AddrValue.raw b => b.length == 20
  | AddrValue.strval _ => false

/-- Modelled from the spec: `ethpm.validation.validate_address` is not under
`src/`.  `bind`/instantiation validates that the supplied address is a
well-formed canonical (20-byte raw) address before delegating; `None` and
wrong-width values raise `ValidationError`. -/
def validate_address (address : Option (List Nat)) : Except Err Unit :=
  match address with
  | some b =>
    if b.length == 20 then Except.ok ()
    else Except.error (Err.validationError "Expected a canonical address")
  | none => Except.error (Err.validationError "Expected a canonical address")

/-- The class-level attributes of a LinkableContract factory class:
`bytecode`, `bytecode_runtime`, `unlinked_references`, `linked_references`
and `needs_bytecode_linking`. -/
structure ContractFactory where
  bytecode : List Nat
  bytecode_runtime : List Nat
  unlinked_references : Option (List LinkRef)
  linked_references : Option (List LinkRef)
  needs_bytecode_linking : Bool
  deriving DecidableEq

/-- Keyword arguments of `LinkableContract.factory`; `none` models an absent
keyword (for which `kwargs.get` returns `None`). -/
structure FactoryKwargs where
  bytecode : Option (List Nat)
  bytecode_runtime : Option (List Nat)
  unlinked_references : Option (List LinkRef)
  linked_references : Option (List LinkRef)
  deriving DecidableEq

/-- Python truthiness of an optional reference list: present and nonempty. -/
def truthyRefs : Option (List LinkRef) → Bool
  | none => false
  | some refs => !refs.isEmpty

/-- `LinkableContract.factory`: `needs_bytecode_linking` is computed from the
`unlinked_references` and `bytecode` keyword arguments alone (a present
bytecode hex string is truthy), then the new class is built; attributes not
supplied in kwargs are inherited from `cls`. -/
def LinkableContract.factory (cls : ContractFactory) (kwargs : FactoryKwargs) :
    ContractFactory :=
  let needs_bytecode_linking :=
    match kwargs.unlinked_references, kwargs.bytecode with
    | some dep_link_refs, some bc =>
      !dep_link_refs.isEmpty && !(is_prelinked_bytecode bc dep_link_refs)
    | _, _ => false
  { bytecode := kwargs.bytecode.getD cls.bytecode
    bytecode_runtime := kwargs.bytecode_runtime.getD cls.bytecode_runtime
    unlinked_references :=
      kwargs.unlinked_references.or cls.unlinked_references
    linked_references := kwargs.linked_references.or cls.linked_references
    needs_bytecode_linking := needs_bytecode_linking }

/-- The class-level defaults of `LinkableContract` itself: every attribute is
`None` (a falsy `needs_bytecode_linking` is modelled as `false`). -/
def LinkableContract.base : ContractFactory :=
  { bytecode := []
    bytecode_runtime := []
    unlinked_references := none
    linked_references := none
    needs_bytecode_linking := false }

/-- The combined reference list built inside `validate_attr_dict`: both lists
when both are truthy, otherwise whichever one is truthy. -/
def all_link_refs_of (self : ContractFactory) : List LinkRef :=
  if truthyRefs self.unlinked_references &&
      truthyRefs self.linked_references then
    self.unlinked_references.getD [] ++ self.linked_references.getD []
  else if !(truthyRefs self.unlinked_references) then
    self.linked_references.getD []
  else
    self.unlinked_references.getD []

/-- Boolean equality of two key lists viewed as sets, mirroring
`set(attr_dict_names) == set(all_link_names)`. -/
def sameKeySet (a b : List String) : Bool :=
  a.all (fun x => b.contains x) && b.all (fun x => a.contains x)

/-- `LinkableContract.validate_attr_dict`: rejects a factory with no truthy
reference list, then an attr-dict whose key set differs from the combined
reference names, then the first value that is not a canonical address. -/
def validate_attr_dict (self : ContractFactory)
    (attr_dict : List (String × AddrValue)) : Except Err Unit :=
  if !(truthyRefs self.unlinked_references) &&
      !(truthyRefs self.linked_references) then
    Except.error (Err.bytecodeLinkingError
      "Unable to validate attr dict, this contract has no linked/unlinked references.")
  else if !(sameKeySet (attr_dict.map Prod.fst)
      ((all_link_refs_of self).map LinkRef.name)) then
    Except.error (Err.bytecodeLinkingError
      "All link references must be defined when calling link_bytecode on a contract factory.")
  else
    match attr_dict.find? (fun p => !(is_canonical_address p.2)) with
    | some _ => Except.error (Err.bytecodeLinkingError
        "Address as specified in the attr_dict is not a valid canoncial address.")
    | none => Except.ok ()

/-- The raw-byte view of an attr-dict handed from `validate_attr_dict` to the
patching phase of `link_bytecode`.  After validation succeeds every value is
raw, so the string branch is unreachable on that path (in Python a string
value would raise a `TypeError` inside concatenation). -/
def attrBytes (attr_dict : List (String × AddrValue)) :
    List (String × List Nat) :=
  attr_dict.map fun p =>
    (p.1, match p.2 with
          | AddrValue.raw b => b
          | AddrValue.strval _ => [])

/-- `LinkableContract.link_bytecode`: guards (reference absence, already
linked), attr-dict validation, patching of both payloads, reconstruction of
the class through `factory` (passing no reference kwargs), and the final
internal-consistency check. -/
def link_bytecode (cls : ContractFactory)
    (attr_dict : List (String × AddrValue)) : Except Err ContractFactory :=
  if !(truthyRefs cls.unlinked_references) &&
      !(truthyRefs cls.linked_references) then
    Except.error (Err.bytecodeLinkingError
      "Contract factory has no linkable bytecode.")
  else if !cls.needs_bytecode_linking then
    Except.error (Err.bytecodeLinkingError
      "Bytecode for this contract factory does not require bytecode linking.")
  else
    match validate_attr_dict cls attr_dict with
    | Except.error e => Except.error e
    | Except.ok _ =>
      match apply_all_link_refs cls.bytecode cls.unlinked_references
          (attrBytes attr_dict) with
      | Except.error e => Except.error e
      | Except.ok bytecode =>
        match apply_all_link_refs cls.bytecode_runtime cls.linked_references
            (attrBytes attr_dict) with
        | Except.error e => Except.error e
        | Except.ok runtime =>
          if (LinkableContract.factory cls
              { bytecode := some bytecode
                bytecode_runtime := some runtime
                unlinked_references := none
                linked_references := none }).needs_bytecode_linking then
            Except.error (Err.bytecodeLinkingError
              "Expected class to be fully linked, but class still needs bytecode linking.")
          else
            Except.ok (LinkableContract.factory cls
              { bytecode := some bytecode
                bytecode_runtime := some runtime
                unlinked_references := none
                linked_references := none })

/-- `LinkableContract.constructor` (deployment-transaction preparation):
guarded on the linking flag; the delegation to the superclass is modelled as
an opaque success. -/
def LinkableContract.constructor (cls : ContractFactory) : Except Err Unit :=
  if cls.needs_bytecode_linking then
    Except.error (Err.bytecodeLinkingError
      "Contract cannot be deployed until its bytecode is linked.")
  else Except.ok ()

/-- `LinkableContract.__init__` (binding an instance to an address): guarded
on the linking flag, then validates the address; the superclass construction
is modelled as an opaque success. -/
def LinkableContract.init (cls : ContractFactory)
    (address : Option (List Nat)) : Except Err Unit :=
  if cls.needs_bytecode_linking then
    Except.error (Err.bytecodeLinkingError
      "Contract cannot be instantiated until its bytecode is linked.")
  else
    match validate_address address with
    | Except.error e => Except.error e
    | Except.ok _ => Except.ok ()

/-- Two resolved patch targets occupy disjoint byte ranges. -/
def DisjointPatch (p q : Nat × Nat × List Nat) : Prop :=
  p.1 + p.2.1 ≤ q.1 ∨ q.1 + q.2.1 ≤ p.1

instance : DecidableRel DisjointPatch := fun p q => by
  unfold DisjointPatch
  infer_instance

/-- The resolved `(offset, length, value)` triples of a reference list under
an attr-dict with every required name present. -/
def resolvedPairs (refs : List LinkRef) (attr : List (String × List Nat)) :
    List (Nat × Nat × List Nat) :=
  (linkPairs refs).map fun p => (p.1, p.2.1, (List.lookup p.2.2 attr).getD [])

/-! ### Concrete examples -/

/-- A concrete unlinked contract factory: one 20-byte deployment link
reference at offset 0 over an all-zero payload. -/
def demoUnlinked : ContractFactory :=
  LinkableContract.factory LinkableContract.base
    { bytecode := some (List.replicate 20 0)
      bytecode_runtime := some []
      unlinked_references := some [⟨"Math", [0], 20⟩]
      linked_references := none }

/-- A concrete attr-dict resolving the single reference of the example to a
non-zero canonical address. -/
def demoAttr : List (String × AddrValue) :=
  [("Math", AddrValue.raw (1 :: List.replicate 19 0))]

/-- The linked class produced by `link_bytecode demoUnlinked demoAttr`. -/
def demoLinked : ContractFactory :=
  { bytecode := 1 :: List.replicate 19 0
    bytecode_runtime := []
    unlinked_references := some [⟨"Math", [0], 20⟩]
    linked_references := none
    needs_bytecode_linking := false }

/-- A contract factory with a single 20-byte deployment reference, used by
the validator examples. -/
def demoFactory : ContractFactory :=
  { bytecode := []
    bytecode_runtime := []
    unlinked_references := some [⟨"Math", [0], 20⟩]
    linked_references := none
    needs_bytecode_linking := true }

/-- Whether an error is a `BytecodeLinkingError`. -/
def Err.isLinking : Err → Bool
  | Err.bytecodeLinkingError _ => true
  | _ => false

/-! ### Region lemmas -/

theorem readRegion_getElem? (bc : List Nat) (o l j : Nat) :
    (readRegion bc o l)[j]? = if j < l then bc[o + j]? else none := by
  unfold readRegion
  rw [List.getElem?_take]
  by_cases h : j < l <;> simp [h, List.getElem?_drop]

theorem readRegion_congr {x y : List Nat} {o l : Nat}
    (h : ∀ i, o ≤ i → i < o + l → x[i]? = y[i]?) :
    readRegion x o l = readRegion y o l := by
  apply List.ext_getElem?
  intro j
  rw [readRegion_getElem?, readRegion_getElem?]
  by_cases hj : j < l
  · simpa [hj] using h (o + j) (Nat.le_add_right o j) (by omega)
  · simp [hj]

theorem validate_empty_bytes_bounds {o l : Nat} {bc : List Nat}
    (h : validate_empty_bytes o l bc = true) : l = 0 ∨ o + l ≤ bc.length := by
  unfold validate_empty_bytes at h
  have he : readRegion bc o l = List.replicate l 0 := eq_of_beq h
  have hlen : (readRegion bc o l).length = l := by rw [he]; simp
  unfold readRegion at hlen
  simp only [List.length_take, List.length_drop] at hlen
  have h2 : l ≤ bc.length - o := min_eq_left_iff.mp hlen
  omega

/-! ### Single-patch lemma -/

/-- Effect of a successful `apply_link_ref` when the value width matches the region: the length is preserved, the region now holds the value, and every
other byte is untouched. -/
theorem apply_link_ref_ok {o l : Nat} {v bc : List Nat}
    (hemp : validate_empty_bytes o l bc = true) (hv : v.length = l) :
    ∃ out, apply_link_ref o l v bc = Except.ok out ∧
      out.length = bc.length ∧
      readRegion out o l = v ∧
      ∀ i, (i < o ∨ o + l ≤ i) → out[i]? = bc[i]? := by
  refine ⟨bc.take o ++ v ++ bc.drop (o + l),
    by rw [apply_link_ref, if_pos hemp], ?_, ?_, ?_⟩
  all_goals
    rcases validate_empty_bytes_bounds hemp with h0 | hb
  · subst h0
    have hv0 : v = [] := List.length_eq_zero.mp hv
    simp [hv0, List.take_append_drop]
  · have hto : (bc.take o).length = o := by
      simp [List.length_take]; omega
    simp only [List.length_append, hto, List.length_drop, hv]
    omega
  · subst h0
    have hv0 : v = [] := List.length_eq_zero.mp hv
    simp [hv0, readRegion, List.take_append_drop]
  · have hto : (bc.take o).length = o := by
      simp [List.length_take]; omega
    unfold readRegion
    rw [List.append_assoc, List.drop_left' hto, List.take_left' hv]
  · subst h0
    have hv0 : v = [] := List.length_eq_zero.mp hv
    simp [hv0, List.take_append_drop]
  · have hto : (bc.take o).length = o := by
      simp [List.length_take]; omega
    have htv : (bc.take o ++ v).length = o + l := by
      simp [List.length_append, hto, hv]
    intro i hi
    rcases hi with hi | hi
    · rw [List.getElem?_append_left (by omega : i < (bc.take o ++ v).length),
        List.getElem?_append_left (by omega : i < (bc.take o).length),
        List.getElem?_take]
      simp [hi]
    · rw [List.getElem?_append_right (by omega : (bc.take o ++ v).length ≤ i),
        htv, List.getElem?_drop]
      congr 1
      omega

/-! ### Multi-patch fold lemma -/

/-- Folding the patchers over pairwise-disjoint, currently-empty, width-exact
targets succeeds, preserves the length, writes every value into its region,
and leaves every byte outside the regions unchanged. -/
theorem foldPatches_ok :
    ∀ (ps : List (Nat × Nat × List Nat)) (bc : List Nat),
    (∀ p ∈ ps, validate_empty_bytes p.1 p.2.1 bc = true) →
    (∀ p ∈ ps, p.2.2.length = p.2.1) →
    ps.Pairwise DisjointPatch →
    ∃ out, foldPatches ps bc = Except.ok out ∧
      out.length = bc.length ∧
      (∀ p ∈ ps, readRegion out p.1 p.2.1 = p.2.2) ∧
      ∀ i, (∀ p ∈ ps, i < p.1 ∨ p.1 + p.2.1 ≤ i) → out[i]? = bc[i]?
  | [], bc, _, _, _ => ⟨bc, rfl, rfl, by simp, fun i _ => rfl⟩
  | p :: ps, bc, hemp, hlen, hdisj => by
    obtain ⟨hpd, hdisj'⟩ := List.pairwise_cons.mp hdisj
    obtain ⟨bc1, hstep, hlen1, hreg1, hout1⟩ :=
      apply_link_ref_ok (hemp p (List.mem_cons_self p ps))
        (hlen p (List.mem_cons_self p ps))
    have hemp1 : ∀ q ∈ ps, validate_empty_bytes q.1 q.2.1 bc1 = true := by
      intro q hq
      have hqr : readRegion bc1 q.1 q.2.1 = readRegion bc q.1 q.2.1 := by
        apply readRegion_congr
        intro i hi1 hi2
        apply hout1
        rcases hpd q hq with hd | hd
        · right; omega
        · left; omega
      unfold validate_empty_bytes
      rw [hqr]
      exact hemp q (List.mem_cons_of_mem p hq)
    obtain ⟨out, hfold, hlen2, hreg2, hout2⟩ :=
      foldPatches_ok ps bc1 hemp1
        (fun q hq => hlen q (List.mem_cons_of_mem p hq)) hdisj'
    refine ⟨out, ?_, hlen2.trans hlen1, ?_, ?_⟩
    · unfold foldPatches
      rw [hstep]
      exact hfold
    · intro q hq
      rcases List.mem_cons.mp hq with rfl | hq'
      · have : readRegion out q.1 q.2.1 = readRegion bc1 q.1 q.2.1 := by
          apply readRegion_congr
          intro i hi1 hi2
          apply hout2
          intro r hr
          rcases hpd r hr with hd | hd
          · left; omega
          · right; omega
        rw [this]
        exact hreg1
      · exact hreg2 q hq'
    · intro i hi
      rw [hout2 i (fun q hq => hi q (List.mem_cons_of_mem p hq))]
      exact hout1 i (hi p (List.mem_cons_self p ps))

/-! ### Resolution lemmas -/

theorem resolveAll_ok {attr : List (String × List Nat)} :
    ∀ {ps : List (Nat × Nat × String)},
    (∀ p ∈ ps, (List.lookup p.2.2 attr).isSome = true) →
    resolveAll attr ps = Except.ok
      (ps.map fun p => (p.1, p.2.1, (List.lookup p.2.2 attr).getD []))
  | [], _ => rfl
  | p :: ps, h => by
    obtain ⟨v, hv⟩ := Option.isSome_iff_exists.mp
      (h p (List.mem_cons_self p ps))
    have hrec := @resolveAll_ok attr ps
      (fun q hq => h q (List.mem_cons_of_mem p hq))
    unfold resolveAll
    rw [hv, hrec]
    simp [hv]

theorem apply_all_link_refs_eq_fold {bc : List Nat} {refs : List LinkRef}
    {attr : List (String × List Nat)}
    (h : ∀ p ∈ linkPairs refs, (List.lookup p.2.2 attr).isSome = true) :
    apply_all_link_refs bc (some refs) attr =
      foldPatches (resolvedPairs refs attr) bc := by
  have hm : apply_all_link_refs bc (some refs) attr =
      match resolveAll attr (linkPairs refs) with
      | Except.error e => Except.error e
      | Except.ok qs => foldPatches qs bc := rfl
  rw [hm, resolveAll_ok h]
  rfl

/-! ### Error classification lemmas -/

theorem validate_attr_dict_error_msgs {cls : ContractFactory}
    {attr : List (String × AddrValue)} {e : Err}
    (h : validate_attr_dict cls attr = Except.error e) :
    e = Err.bytecodeLinkingError
      "Unable to validate attr dict, this contract has no linked/unlinked references." ∨
    e = Err.bytecodeLinkingError
      "All link references must be defined when calling link_bytecode on a contract factory." ∨
    e = Err.bytecodeLinkingError
      "Address as specified in the attr_dict is not a valid canoncial address." := by
  unfold validate_attr_dict at h
  split at h
  · left
    injection h with h2
    exact h2.symm
  · split at h
    · right; left
      injection h with h2
      exact h2.symm
    · split at h
      · right; right
        injection h with h2
        exact h2.symm
      · exact absurd h (by simp)

theorem resolveAll_error_class {attr : List (String × List Nat)} :
    ∀ {ps : List (Nat × Nat × String)} {e : Err},
    resolveAll attr ps = Except.error e → ∃ n, e = Err.keyError n
  | [], e, h => by simp [resolveAll] at h
  | p :: ps, e, h => by
    unfold resolveAll at h
    split at h
    · injection h with h2
      exact ⟨p.2.2, h2.symm⟩
    · split at h
      · rename_i e' heq
        injection h with h2
        subst h2
        exact resolveAll_error_class heq
      · exact absurd h (by simp)

theorem foldPatches_error_class :
    ∀ {ps : List (Nat × Nat × List Nat)} {bc : List Nat} {e : Err},
    foldPatches ps bc = Except.error e →
    e = Err.bytecodeLinkingError "Link references cannot be applied to bytecode"
  | [], bc, e, h => by simp [foldPatches] at h
  | q :: qs, bc, e, h => by
    unfold foldPatches at h
    split at h
    · rename_i e' heq
      injection h with h2
      subst h2
      unfold apply_link_ref at heq
      split at heq
      · exact absurd heq (by simp)
      · injection heq with h3
        exact h3.symm
    · exact foldPatches_error_class h

theorem apply_all_link_refs_error_class {bc : List Nat}
    {refs : Option (List LinkRef)} {attr : List (String × List Nat)} {e : Err}
    (h : apply_all_link_refs bc refs attr = Except.error e) :
    (∃ n, e = Err.keyError n) ∨
    e = Err.bytecodeLinkingError
      "Link references cannot be applied to bytecode" := by
  unfold apply_all_link_refs at h
  split at h
  · exact absurd h (by simp)
  · split at h
    · rename_i e' heq
      injection h with h2
      subst h2
      exact Or.inl (resolveAll_error_class heq)
    · exact Or.inr (foldPatches_error_class h)

/-- The factory call inside `link_bytecode` passes no `unlinked_references`
keyword, so the recomputed flag of the rebuilt class is always `false`. -/
theorem factory_no_unlinked_kwarg (cls : ContractFactory) (b r : List Nat) :
    (LinkableContract.factory cls
      { bytecode := some b
        bytecode_runtime := some r
        unlinked_references := none
        linked_references := none }).needs_bytecode_linking = false := rfl

/-- C4: in `link_bytecode`, once validation and patching succeed, the
internal-consistency error branch is unreachable: the rebuilt class passes no
`unlinked_references` keyword to `factory`, so its recomputed
`needs_bytecode_linking` is always `false`, and `link_bytecode` can never
return the internal-consistency error. -/
theorem C4_internal_consistency_branch_unreachable
    (cls : ContractFactory) (attr : List (String × AddrValue))
    (b r : List Nat) :
    (LinkableContract.factory cls
      { bytecode := some b
        bytecode_runtime := some r
        unlinked_references := none
        linked_references := none }).needs_bytecode_linking = false ∧
    link_bytecode cls attr ≠ Except.error (Err.bytecodeLinkingError
      "Expected class to be fully linked, but class still needs bytecode linking.") := by
  refine ⟨rfl, ?_⟩
  intro h
  unfold link_bytecode at h
  split at h
  · injection h with h2
    injection h2 with h3
    exact absurd h3 (by decide)
  · split at h
    · injection h with h2
      injection h2 with h3
      exact absurd h3 (by decide)
    · split at h
      · rename_i e heq
        injection h with h2
        rcases validate_attr_dict_error_msgs heq with h3 | h3 | h3 <;>
          (rw [h3] at h2; exact absurd h2 (by decide))
      · split at h
        · rename_i e heq
          injection h with h2
          rcases apply_all_link_refs_error_class heq with ⟨n, h3⟩ | h3
          · rw [h3] at h2
            exact Err.noConfusion h2
          · rw [h3] at h2
            exact absurd h2 (by decide)
        · split at h
          · rename_i e heq
            injection h with h2
            rcases apply_all_link_refs_error_class heq with ⟨n, h3⟩ | h3
            · rw [h3] at h2
              exact Err.noConfusion h2
            · rw [h3] at h2
              exact absurd h2 (by decide)
          · split at h
            · rename_i hcond
              rw [factory_no_unlinked_kwarg] at hcond
              exact absurd hcond (by decide)
            · exact Except.noConfusion h

/-- C4 witness: the internal-consistency error is not returned at a concrete
input either. -/
theorem C4_witness :
    (LinkableContract.factory LinkableContract.base
      { bytecode := some [0]
        bytecode_runtime := some []
        unlinked_references := none
        linked_references := none }).needs_bytecode_linking = false ∧
    link_bytecode LinkableContract.base [] ≠ Except.error
      (Err.bytecodeLinkingError
        "Expected class to be fully linked, but class still needs bytecode linking.") :=
  C4_internal_consistency_branch_unreachable LinkableContract.base [] [0] []

/-- C1 counterexample: the claim says the flag is true exactly when every
referenced region of BOTH payloads is all-zero; here the referenced region of the runtime payload is non-zero (its scan fails), yet the factory still sets
`needs_bytecode_linking = true`, because only the deployment payload and the
unlinked-references list are consulted. -/
theorem C1_counterexample :
    (LinkableContract.factory LinkableContract.base
      { bytecode := some [0, 0]
        bytecode_runtime := some [1]
        unlinked_references := some [⟨"A", [0], 2⟩]
        linked_references := some [⟨"B", [0], 1⟩]
      }).needs_bytecode_linking = true ∧
    validate_empty_bytes 0 1 [1] = false := by
  decide

/-- C1 (amended): at factory-construction time the linking-required flag is
computed by applying the Placeholder Scanner only to the deployment bytecode
with the unlinked-references list (the runtime payload and linked-references
list are not consulted): the flag is true exactly when a nonempty
unlinked-references list and a bytecode are passed and every referenced
region of the deployment bytecode is all-zero. -/
theorem C1_needs_linking_from_deployment_payload
    (cls : ContractFactory) (kwargs : FactoryKwargs) :
    (LinkableContract.factory cls kwargs).needs_bytecode_linking = true ↔
      ∃ refs bc, kwargs.unlinked_references = some refs ∧
        kwargs.bytecode = some bc ∧ refs ≠ [] ∧
        is_prelinked_bytecode bc refs = false := by
  cases hun : kwargs.unlinked_references with
  | none => simp [LinkableContract.factory, hun]
  | some refs =>
    cases hbc : kwargs.bytecode with
    | none => simp [LinkableContract.factory, hun, hbc]
    | some bc =>
      simp only [LinkableContract.factory, hun, hbc, Option.some.injEq]
      constructor
      · intro h
        rw [Bool.and_eq_true, Bool.not_eq_true', Bool.not_eq_true'] at h
        refine ⟨refs, bc, rfl, rfl, ?_, h.2⟩
        intro hnil
        rw [hnil] at h
        exact absurd h.1 (by decide)
      · rintro ⟨refs', bc', h1, h2, hne, hpre⟩
        obtain rfl : refs = refs' := h1
        obtain rfl : bc = bc' := h2
        rw [Bool.and_eq_true, Bool.not_eq_true', Bool.not_eq_true']
        refine ⟨?_, hpre⟩
        cases refs with
        | nil => exact absurd rfl hne
        | cons a as => rfl

/-- C2 counterexample: the claim says the length of the patched payload always equals that of the input; with a resolved value whose width differs from the
reference length (a 20-byte canonical address for a 2-byte region) the patch
succeeds but changes the length. -/
theorem C2_counterexample :
    apply_link_ref 0 2 (List.replicate 20 1) [0, 0, 9] =
      Except.ok (List.replicate 20 1 ++ [9]) ∧
    (List.replicate 20 1 ++ [9]).length ≠ ([0, 0, 9] : List Nat).length := by
  constructor
  · rfl
  · decide

/-- C2 (amended): for every payload, reference region that is currently
all-zero, and resolved value whose width equals the reference length, the
patcher returns a payload whose bytes in the region equal the value, whose
bytes outside the region equal those of the input, and whose length equals the length of the input. -/
theorem C2_apply_link_ref_patches_region
    (offset length : Nat) (value bytecode : List Nat)
    (hemp : validate_empty_bytes offset length bytecode = true)
    (hw : value.length = length) :
    ∃ out, apply_link_ref offset length value bytecode = Except.ok out ∧
      readRegion out offset length = value ∧
      (∀ i, i < offset ∨ offset + length ≤ i → out[i]? = bytecode[i]?) ∧
      out.length = bytecode.length := by
  obtain ⟨out, h1, h2, h3, h4⟩ := apply_link_ref_ok hemp hw
  exact ⟨out, h1, h3, h4, h2⟩

/-- C2 witness: the amended patch contract at a concrete input. -/
theorem C2_witness :
    ∃ out, apply_link_ref 3 2 [7, 8] [9, 9, 9, 0, 0, 9] = Except.ok out ∧
      readRegion out 3 2 = [7, 8] ∧
      (∀ i, i < 3 ∨ 3 + 2 ≤ i → out[i]? = [9, 9, 9, 0, 0, 9][i]?) ∧
      out.length = ([9, 9, 9, 0, 0, 9] : List Nat).length :=
  C2_apply_link_ref_patches_region 3 2 [7, 8] [9, 9, 9, 0, 0, 9]
    (by decide) (by decide)

/-! ### Non-empty regions -/

/-- A region that holds a non-zero byte fails the empty-bytes check. -/
theorem nonzero_region_not_empty {bc : List Nat} {o l : Nat}
    (h : ∃ (j : Nat) (b : Nat),
      (readRegion bc o l)[j]? = some b ∧ b ≠ 0) :
    validate_empty_bytes o l bc = false := by
  obtain ⟨j, b, hjb, hbnz⟩ := h
  unfold validate_empty_bytes
  rw [beq_eq_false_iff_ne]
  intro he
  rw [he] at hjb
  exact hbnz (List.eq_of_mem_replicate (List.mem_iff_getElem?.mpr ⟨j, hjb⟩))

/-- A patch whose target region fails the empty-bytes check raises the
patch-target-not-empty linking error. -/
theorem apply_link_ref_not_empty {o l : Nat} {v bc : List Nat}
    (h : validate_empty_bytes o l bc = false) :
    apply_link_ref o l v bc = Except.error (Err.bytecodeLinkingError
      "Link references cannot be applied to bytecode") := by
  unfold apply_link_ref
  rw [h]
  simp

/-- C3 counterexample: a well-formed attr-dict (exact key set, canonical
20-byte value) whose value is the all-zero address: patching every reference
succeeds, yet re-scanning the result with the same reference list leaves
`needs_bytecode_linking = true`, not `false` as the claim states. -/
theorem C3_counterexample :
    is_canonical_address (AddrValue.raw (List.replicate 20 0)) = true ∧
    apply_all_link_refs (List.replicate 20 0) (some [⟨"Math", [0], 20⟩])
      [("Math", List.replicate 20 0)] = Except.ok (List.replicate 20 0) ∧
    (LinkableContract.factory LinkableContract.base
      { bytecode := some (List.replicate 20 0)
        bytecode_runtime := none
        unlinked_references := some [⟨"Math", [0], 20⟩]
        linked_references := none }).needs_bytecode_linking = true := by
  refine ⟨by decide, by rfl, by decide⟩

/-- C3 (amended): for a payload whose referenced regions are all-zero and
pairwise disjoint, and an attr-dict that resolves every reference name to a
value of the reference's width at least one of which contains a non-zero
byte, patching all references succeeds and re-scanning the result with the
same reference list yields `needs_bytecode_linking = false`. -/
theorem C3_round_trip_rescan_linked
    (bc : List Nat) (refs : List LinkRef) (attr : List (String × List Nat))
    (hkeys : ∀ p ∈ linkPairs refs, (List.lookup p.2.2 attr).isSome = true)
    (hemp : ∀ p ∈ resolvedPairs refs attr,
      validate_empty_bytes p.1 p.2.1 bc = true)
    (hw : ∀ p ∈ resolvedPairs refs attr, p.2.2.length = p.2.1)
    (hdisj : (resolvedPairs refs attr).Pairwise DisjointPatch)
    (hnz : ∃ p ∈ resolvedPairs refs attr, ∃ b ∈ p.2.2, b ≠ 0) :
    ∃ out, apply_all_link_refs bc (some refs) attr = Except.ok out ∧
      (LinkableContract.factory LinkableContract.base
        { bytecode := some out
          bytecode_runtime := none
          unlinked_references := some refs
          linked_references := none }).needs_bytecode_linking = false := by
  obtain ⟨out, hfold, _, hreg, _⟩ :=
    foldPatches_ok (resolvedPairs refs attr) bc hemp hw hdisj
  refine ⟨out, (apply_all_link_refs_eq_fold hkeys).trans hfold, ?_⟩
  obtain ⟨p, hp, b, hb, hbnz⟩ := hnz
  obtain ⟨q, hq, hpq⟩ := List.mem_map.mp hp
  obtain ⟨r, hr, hq2⟩ := List.mem_flatMap.mp hq
  obtain ⟨o, ho, hqo⟩ := List.mem_map.mp hq2
  subst hqo
  subst hpq
  have hregion := hreg _ hp
  have hpre : is_prelinked_bytecode out refs = true := by
    unfold is_prelinked_bytecode
    rw [List.any_eq_true]
    refine ⟨r, hr, ?_⟩
    rw [List.any_eq_true]
    refine ⟨o, ho, ?_⟩
    rw [Bool.not_eq_true']
    apply nonzero_region_not_empty
    obtain ⟨j, hj⟩ := List.mem_iff_getElem?.mp hb
    exact ⟨j, b, by rw [show (o : Nat) = ((o, r.length, r.name) : Nat × Nat × String).1 from rfl, hregion]; exact hj, hbnz⟩
  simp [LinkableContract.factory, hpre]

/-- C3 witness: the amended round-trip at a concrete single-reference
contract with a non-zero 20-byte address. -/
theorem C3_witness :
    ∃ out, apply_all_link_refs (List.replicate 20 0)
        (some [⟨"Math", [0], 20⟩])
        [("Math", 1 :: List.replicate 19 0)] = Except.ok out ∧
      (LinkableContract.factory LinkableContract.base
        { bytecode := some out
          bytecode_runtime := none
          unlinked_references := some [⟨"Math", [0], 20⟩]
          linked_references := none }).needs_bytecode_linking = false :=
  C3_round_trip_rescan_linked (List.replicate 20 0) [⟨"Math", [0], 20⟩]
    [("Math", 1 :: List.replicate 19 0)]
    (by decide) (by decide) (by decide) (by decide) (by decide)

/-- C5: a patch whose target region holds a non-zero byte raises the
patch-target-not-empty linking error instead of writing the value, and a
second patch applied to an already-patched payload (whose written value, of the width of the region, contains a non-zero byte) raises that same error. -/
theorem C5_nonzero_region_rejected
    (offset length : Nat) (value value2 bytecode out : List Nat) :
    ((∃ (j : Nat) (b : Nat),
        (readRegion bytecode offset length)[j]? = some b ∧ b ≠ 0) →
      apply_link_ref offset length value bytecode = Except.error
        (Err.bytecodeLinkingError
          "Link references cannot be applied to bytecode")) ∧
    (apply_link_ref offset length value bytecode = Except.ok out →
      value.length = length → (∃ b ∈ value, b ≠ 0) →
      apply_link_ref offset length value2 out = Except.error
        (Err.bytecodeLinkingError
          "Link references cannot be applied to bytecode")) := by
  constructor
  · intro h
    exact apply_link_ref_not_empty (nonzero_region_not_empty h)
  · intro hok hw hnz
    cases hv : validate_empty_bytes offset length bytecode with
    | false =>
      rw [apply_link_ref_not_empty hv] at hok
      exact Except.noConfusion hok
    | true =>
      obtain ⟨out', hok', _, hreg', _⟩ := apply_link_ref_ok hv hw
      rw [hok'] at hok
      obtain rfl : out' = out := Except.ok.inj hok
      apply apply_link_ref_not_empty
      apply nonzero_region_not_empty
      obtain ⟨b, hb, hbnz⟩ := hnz
      obtain ⟨j, hj⟩ := List.mem_iff_getElem?.mp hb
      exact ⟨j, b, by rw [hreg']; exact hj, hbnz⟩

/-- C5 witness: rejection of a non-empty target and of a double patch at
concrete inputs. -/
theorem C5_witness :
    apply_link_ref 0 1 [4] [2, 0] = Except.error
      (Err.bytecodeLinkingError
        "Link references cannot be applied to bytecode") ∧
    apply_link_ref 0 1 [7] [3, 9] = Except.error
      (Err.bytecodeLinkingError
        "Link references cannot be applied to bytecode") :=
  ⟨(C5_nonzero_region_rejected 0 1 [4] [7] [2, 0] []).1
      ⟨0, 2, by decide, by decide⟩,
   (C5_nonzero_region_rejected 0 1 [3] [7] [0, 9] [3, 9]).2 (by rfl)
      (by decide) ⟨3, by decide, by decide⟩⟩

/-! ### Linked-class lemmas and the lifecycle gate -/

/-- A successful `link_bytecode` returns a class whose recomputed linking
flag is `false` (the rebuilt class is the `factory` result with no reference
kwargs). -/
theorem link_bytecode_ok_not_needs {cls : ContractFactory}
    {attr : List (String × AddrValue)} {linked : ContractFactory}
    (h : link_bytecode cls attr = Except.ok linked) :
    linked.needs_bytecode_linking = false := by
  unfold link_bytecode at h
  split at h
  · exact Except.noConfusion h
  · split at h
    · exact Except.noConfusion h
    · split at h
      · exact Except.noConfusion h
      · split at h
        · exact Except.noConfusion h
        · split at h
          · exact Except.noConfusion h
          · split at h
            · exact Except.noConfusion h
            · obtain rfl := Except.ok.inj h
              exact factory_no_unlinked_kwarg ..

/-- C6: in the Unlinked state (flag true) both deployment preparation and
instantiation fail immediately with a linking error, for all arguments; once
`link_bytecode` has produced a linked class, the constructor succeeds and
instantiation succeeds for every canonical address. -/
theorem C6_state_gated_construction
    (cls linked : ContractFactory) (attr : List (String × AddrValue))
    (address : Option (List Nat)) :
    (cls.needs_bytecode_linking = true →
      LinkableContract.constructor cls = Except.error
        (Err.bytecodeLinkingError
          "Contract cannot be deployed until its bytecode is linked.") ∧
      LinkableContract.init cls address = Except.error
        (Err.bytecodeLinkingError
          "Contract cannot be instantiated until its bytecode is linked.")) ∧
    (link_bytecode cls attr = Except.ok linked →
      LinkableContract.constructor linked = Except.ok () ∧
      ∀ a : List Nat, a.length = 20 →
        LinkableContract.init linked (some a) = Except.ok ()) := by
  constructor
  · intro h
    exact ⟨by simp [LinkableContract.constructor, h],
      by simp [LinkableContract.init, h]⟩
  · intro hok
    have hneeds := link_bytecode_ok_not_needs hok
    constructor
    · simp [LinkableContract.constructor, hneeds]
    · intro a ha
      simp [LinkableContract.init, hneeds, validate_address, ha]

/-! ### Name-set lemmas for the attr-dict validator -/

/-- Under at least one truthy reference list, the combined reference list of
`validate_attr_dict` carries exactly the names of the reference lists of both payloads. -/
theorem all_link_refs_names (cls : ContractFactory)
    (href : truthyRefs cls.unlinked_references = true ∨
      truthyRefs cls.linked_references = true) :
    (all_link_refs_of cls).map LinkRef.name =
      (cls.unlinked_references.getD []).map LinkRef.name ++
        (cls.linked_references.getD []).map LinkRef.name := by
  rcases hu : cls.unlinked_references with _ | ul <;>
    rcases hl : cls.linked_references with _ | ll
  · rw [hu, hl] at href
    simp [truthyRefs] at href
  · simp [all_link_refs_of, truthyRefs, hu, hl]
  · rw [hu, hl] at href
    simp only [truthyRefs, Bool.not_eq_true'] at href
    rcases href with h | h
    · simp [all_link_refs_of, truthyRefs, hu, hl, h]
    · exact absurd h (by decide)
  · by_cases hue : ul.isEmpty <;> by_cases hle : ll.isEmpty
    · rw [hu, hl] at href
      rw [List.isEmpty_eq_true] at hue hle
      subst hue
      subst hle
      simp [truthyRefs] at href
    · rw [List.isEmpty_eq_true] at hue
      subst hue
      simp [all_link_refs_of, truthyRefs, hu, hl]
    · rw [List.isEmpty_eq_true] at hle
      subst hle
      rw [Bool.not_eq_true, List.isEmpty_eq_false] at hue
      simp [all_link_refs_of, truthyRefs, hu, hl, hue]
    · rw [Bool.not_eq_true, List.isEmpty_eq_false] at hue hle
      simp [all_link_refs_of, truthyRefs, hu, hl, hue, hle]

/-- C7 (amended): for contract types declaring at least one nonempty
reference list, an attr-dict whose key set differs from the union of
reference names of both payloads is rejected with the mismatch linking
error regardless of its values; among attr-dicts whose values are all
canonical, the validator accepts exactly those whose key set equals that
union. -/
theorem C7_exact_key_set_validation
    (cls : ContractFactory) (attr : List (String × AddrValue))
    (href : truthyRefs cls.unlinked_references = true ∨
      truthyRefs cls.linked_references = true) :
    (sameKeySet (attr.map Prod.fst)
        ((cls.unlinked_references.getD []).map LinkRef.name ++
          (cls.linked_references.getD []).map LinkRef.name) = false →
      validate_attr_dict cls attr = Except.error (Err.bytecodeLinkingError
        "All link references must be defined when calling link_bytecode on a contract factory.")) ∧
    (attr.all (fun p => is_canonical_address p.2) = true →
      (validate_attr_dict cls attr = Except.ok () ↔
        sameKeySet (attr.map Prod.fst)
          ((cls.unlinked_references.getD []).map LinkRef.name ++
            (cls.linked_references.getD []).map LinkRef.name) = true)) := by
  have hcond1 : (!(truthyRefs cls.unlinked_references) &&
      !(truthyRefs cls.linked_references)) = false := by
    rcases href with h | h <;> simp [h]
  have hnames := all_link_refs_names cls href
  constructor
  · intro hks
    unfold validate_attr_dict
    rw [hcond1, hnames, hks]
    simp
  · intro hcanon
    have hfind : attr.find? (fun p => !(is_canonical_address p.2)) = none := by
      rw [List.find?_eq_none]
      intro x hx
      simp [List.all_eq_true.mp hcanon x hx]
    constructor
    · intro hok
      by_contra hks
      rw [Bool.not_eq_true] at hks
      unfold validate_attr_dict at hok
      rw [hcond1, hnames, hks] at hok
      simp at hok
    · intro hks
      unfold validate_attr_dict
      rw [hcond1, hnames, hks, hfind]
      simp

/-- C8 (amended): for contract types declaring at least one nonempty
reference list and attr-dicts whose key set is correct, the validator
rejects with the address-format linking error whenever some value is not a
canonical fixed-width raw-byte address, and accepts when every value is
canonical. -/
theorem C8_canonical_address_enforcement
    (cls : ContractFactory) (attr : List (String × AddrValue))
    (href : truthyRefs cls.unlinked_references = true ∨
      truthyRefs cls.linked_references = true)
    (hkeys : sameKeySet (attr.map Prod.fst)
      ((cls.unlinked_references.getD []).map LinkRef.name ++
        (cls.linked_references.getD []).map LinkRef.name) = true) :
    (attr.all (fun p => is_canonical_address p.2) = false →
      validate_attr_dict cls attr = Except.error (Err.bytecodeLinkingError
        "Address as specified in the attr_dict is not a valid canoncial address.")) ∧
    (attr.all (fun p => is_canonical_address p.2) = true →
      validate_attr_dict cls attr = Except.ok ()) := by
  have hcond1 : (!(truthyRefs cls.unlinked_references) &&
      !(truthyRefs cls.linked_references)) = false := by
    rcases href with h | h <;> simp [h]
  have hnames := all_link_refs_names cls href
  constructor
  · intro hbad
    obtain ⟨x, hx, hxnc⟩ := List.all_eq_false.mp hbad
    have hsome : (attr.find? (fun p => !(is_canonical_address p.2))).isSome := by
      rw [List.find?_isSome]
      refine ⟨x, hx, ?_⟩
      rw [Bool.not_eq_true] at hxnc
      simp [hxnc]
    obtain ⟨w, hw⟩ := Option.isSome_iff_exists.mp hsome
    unfold validate_attr_dict
    rw [hcond1, hnames, hkeys, hw]
    simp
  · intro hcanon
    have hfind : attr.find? (fun p => !(is_canonical_address p.2)) = none := by
      rw [List.find?_eq_none]
      intro x hx
      simp [List.all_eq_true.mp hcanon x hx]
    unfold validate_attr_dict
    rw [hcond1, hnames, hkeys, hfind]
    simp

/-- C9: `link_bytecode` is guarded before any validation or patching: with
no truthy reference list at all it raises the reference-absence linking
error for every attr-dict, and in the Linked state (flag false, with some
reference list present) it raises the does-not-require-linking error for
every attr-dict. -/
theorem C9_link_guards (cls : ContractFactory)
    (attr : List (String × AddrValue)) :
    ((truthyRefs cls.unlinked_references ||
        truthyRefs cls.linked_references) = false →
      link_bytecode cls attr = Except.error (Err.bytecodeLinkingError
        "Contract factory has no linkable bytecode.")) ∧
    ((truthyRefs cls.unlinked_references ||
        truthyRefs cls.linked_references) = true →
      cls.needs_bytecode_linking = false →
      link_bytecode cls attr = Except.error (Err.bytecodeLinkingError
        "Bytecode for this contract factory does not require bytecode linking.")) := by
  constructor
  · intro h
    rw [Bool.or_eq_false_iff] at h
    simp [link_bytecode, h.1, h.2]
  · intro h hn
    have hcond1 : (!(truthyRefs cls.unlinked_references) &&
        !(truthyRefs cls.linked_references)) = false := by
      rcases Bool.or_eq_true_iff.mp h with h1 | h1 <;> simp [h1]
    simp [link_bytecode, hcond1, hn]

/-- C10 (amended): patching over a reference list either returns a payload
or raises an error (which may be the patch-target linking error or a
key-lookup error) without returning any payload; and when every reference
name resolves, every target region is empty, values match the reference
widths and regions are pairwise disjoint, it fully succeeds, patching every
referenced region and leaving all other bytes and the total length
unchanged. -/
theorem C10_patch_atomicity (bc : List Nat) (refs : List LinkRef)
    (attr : List (String × List Nat)) :
    ((∃ out, apply_all_link_refs bc (some refs) attr = Except.ok out) ∨
      (∃ e, apply_all_link_refs bc (some refs) attr = Except.error e)) ∧
    ((∀ p ∈ linkPairs refs, (List.lookup p.2.2 attr).isSome = true) →
      (∀ p ∈ resolvedPairs refs attr,
        validate_empty_bytes p.1 p.2.1 bc = true) →
      (∀ p ∈ resolvedPairs refs attr, p.2.2.length = p.2.1) →
      (resolvedPairs refs attr).Pairwise DisjointPatch →
      ∃ out, apply_all_link_refs bc (some refs) attr = Except.ok out ∧
        out.length = bc.length ∧
        (∀ p ∈ resolvedPairs refs attr,
          readRegion out p.1 p.2.1 = p.2.2) ∧
        ∀ i, (∀ p ∈ resolvedPairs refs attr, i < p.1 ∨ p.1 + p.2.1 ≤ i) →
          out[i]? = bc[i]?) := by
  constructor
  · cases h : apply_all_link_refs bc (some refs) attr with
    | ok out => exact Or.inl ⟨out, rfl⟩
    | error e => exact Or.inr ⟨e, rfl⟩
  · intro hk he hw hd
    obtain ⟨out, h1, h2, h3, h4⟩ :=
      foldPatches_ok (resolvedPairs refs attr) bc he hw hd
    exact ⟨out, (apply_all_link_refs_eq_fold hk).trans h1, h2, h3, h4⟩

/-- C6 witness: the lifecycle gate at a concrete contract type, before and
after linking. -/
theorem C6_witness :
    LinkableContract.constructor demoUnlinked = Except.error
      (Err.bytecodeLinkingError
        "Contract cannot be deployed until its bytecode is linked.") ∧
    LinkableContract.init demoUnlinked none = Except.error
      (Err.bytecodeLinkingError
        "Contract cannot be instantiated until its bytecode is linked.") ∧
    LinkableContract.constructor demoLinked = Except.ok () ∧
    LinkableContract.init demoLinked (some (2 :: List.replicate 19 0)) =
      Except.ok () := by
  have h1 := (C6_state_gated_construction demoUnlinked demoLinked demoAttr
    none).1 (by decide)
  have h2 := (C6_state_gated_construction demoUnlinked demoLinked demoAttr
    none).2 (by rfl)
  exact ⟨h1.1, h1.2, h2.1, h2.2 (2 :: List.replicate 19 0) (by decide)⟩

/-- C7 counterexample: an attr-dict whose key set equals the union of
reference names exactly, yet the validator rejects it (its value is a
checksum string); acceptance is not equivalent to key-set equality. -/
theorem C7_counterexample :
    sameKeySet ([("Math", AddrValue.strval
        "0x1111111111111111111111111111111111111111")].map Prod.fst)
      ((demoFactory.unlinked_references.getD []).map LinkRef.name ++
        (demoFactory.linked_references.getD []).map LinkRef.name) = true ∧
    validate_attr_dict demoFactory
      [("Math", AddrValue.strval
        "0x1111111111111111111111111111111111111111")] =
      Except.error (Err.bytecodeLinkingError
        "Address as specified in the attr_dict is not a valid canoncial address.") := by
  exact ⟨by decide, by rfl⟩

/-- C7 witness: a missing name is rejected with the mismatch error; a
correct key set with a canonical value is accepted. -/
theorem C7_witness :
    validate_attr_dict demoFactory [] = Except.error
      (Err.bytecodeLinkingError
        "All link references must be defined when calling link_bytecode on a contract factory.") ∧
    validate_attr_dict demoFactory
      [("Math", AddrValue.raw (List.replicate 20 3))] = Except.ok () := by
  constructor
  · exact (C7_exact_key_set_validation demoFactory [] (by decide)).1
      (by decide)
  · exact ((C7_exact_key_set_validation demoFactory
      [("Math", AddrValue.raw (List.replicate 20 3))] (by decide)).2
        (by decide)).mpr (by decide)

/-- C8 counterexample: on a contract type with no reference lists, the empty
attr-dict has the correct (empty) key set and vacuously canonical values,
yet the validator rejects it, so acceptance does not follow from
canonical values alone. -/
theorem C8_counterexample :
    sameKeySet (([] : List (String × AddrValue)).map Prod.fst)
      ((LinkableContract.base.unlinked_references.getD []).map LinkRef.name ++
        (LinkableContract.base.linked_references.getD []).map LinkRef.name)
      = true ∧
    (([] : List (String × AddrValue)).all
      (fun p => is_canonical_address p.2)) = true ∧
    validate_attr_dict LinkableContract.base [] = Except.error
      (Err.bytecodeLinkingError
        "Unable to validate attr dict, this contract has no linked/unlinked references.") := by
  exact ⟨by decide, by decide, by rfl⟩

/-- C8 witness: with the correct key set, a checksum-string value is
rejected with the address-format error and a canonical value is accepted. -/
theorem C8_witness :
    validate_attr_dict demoFactory
      [("Math", AddrValue.strval "0xAbC")] = Except.error
        (Err.bytecodeLinkingError
          "Address as specified in the attr_dict is not a valid canoncial address.") ∧
    validate_attr_dict demoFactory
      [("Math", AddrValue.raw (List.replicate 20 7))] = Except.ok () := by
  constructor
  · exact (C8_canonical_address_enforcement demoFactory
      [("Math", AddrValue.strval "0xAbC")] (by decide) (by decide)).1
        (by decide)
  · exact (C8_canonical_address_enforcement demoFactory
      [("Math", AddrValue.raw (List.replicate 20 7))] (by decide)
        (by decide)).2 (by decide)

/-- C9 witness: the reference-absence error on a type with no reference
lists, and the does-not-require-linking error on an already-linked type. -/
theorem C9_witness :
    link_bytecode LinkableContract.base [] = Except.error
      (Err.bytecodeLinkingError
        "Contract factory has no linkable bytecode.") ∧
    link_bytecode demoLinked [] = Except.error
      (Err.bytecodeLinkingError
        "Bytecode for this contract factory does not require bytecode linking.") :=
  ⟨(C9_link_guards LinkableContract.base []).1 (by decide),
   (C9_link_guards demoLinked []).2 (by decide) (by decide)⟩

/-- C10 counterexample: with a missing attr-dict name, the patcher raises a
key-lookup error, not a linking error, so the claimed dichotomy (full
success or a linking error) fails. -/
theorem C10_counterexample :
    apply_all_link_refs [0] (some [⟨"Math", [0], 1⟩]) [] =
      Except.error (Err.keyError "Math") ∧
    Err.isLinking (Err.keyError "Math") = false :=
  ⟨rfl, rfl⟩

/-- C10 witness: the full-success case of the amended atomicity statement at
a concrete input. -/
theorem C10_witness :
    ∃ out, apply_all_link_refs (9 :: List.replicate 20 0)
        (some [⟨"Token", [1], 20⟩]) [("Token", List.replicate 20 2)] =
        Except.ok out ∧
      out.length = (9 :: List.replicate 20 0).length ∧
      (∀ p ∈ resolvedPairs [⟨"Token", [1], 20⟩]
          [("Token", List.replicate 20 2)],
        readRegion out p.1 p.2.1 = p.2.2) ∧
      ∀ i, (∀ p ∈ resolvedPairs [⟨"Token", [1], 20⟩]
          [("Token", List.replicate 20 2)], i < p.1 ∨ p.1 + p.2.1 ≤ i) →
        out[i]? = (9 :: List.replicate 20 0)[i]? :=
  (C10_patch_atomicity (9 :: List.replicate 20 0) [⟨"Token", [1], 20⟩]
    [("Token", List.replicate 20 2)]).2 (by decide) (by decide) (by decide)
    (by decide)
